import Mathlib

/-!
# GWP-ASan guarded page allocator — POSIX backend, verified model

Shallow embedding of `components/gwp_asan/client/guarded_page_allocator_posix.cc`:
the platform-backend primitives `MapRegion`, `UnmapRegion`, `MarkPageReadWrite`
and `MarkPageInaccessible`, over an explicit model of POSIX virtual-memory
state (`mmap`, `mprotect`, `munmap` as state transformers).

Addresses are `Nat`; virtual memory is modelled per byte by three fields:
whether the byte is mapped, its page protection, and its contents.  The
repository code only ever uses `PROT_NONE` and `PROT_READ | PROT_WRITE`, so
protection is a two-valued type.
-/

namespace GwpAsan

/-- Page protection.  The source uses only `PROT_NONE` and
`PROT_READ | PROT_WRITE`. -/
inductive Prot where
  | noAccess  : Prot
  | readWrite : Prot
  deriving DecidableEq, Repr

/-- Virtual-memory state, per byte address: mapped-or-not, protection, and
stored byte value. -/
structure Mem where
  mapped : Nat → Bool
  prot   : Nat → Prot
  val    : Nat → Nat

/-- `x` lies in `[a, a + len)`, as a Bool so hypotheses stay decidable. -/
def inRange (a len x : Nat) : Bool := decide (a ≤ x) && decide (x < a + len)

/-- Every byte of `[a, a + len)` satisfies `f`, computably. -/
def rangeAll (a len : Nat) (f : Nat → Bool) : Bool :=
  (List.range len).all fun i => f (a + i)

/-- Every byte of `[a, a + len)` is mapped. -/
def rangeMapped (m : Mem) (a len : Nat) : Bool := rangeAll a len m.mapped

/-- No byte of `[a, a + len)` is mapped. -/
def rangeUnmapped (m : Mem) (a len : Nat) : Bool := rangeAll a len (fun x => !m.mapped x)

/-- An access (read or write) at `x` succeeds rather than faulting:
the byte is mapped with read-write protection. -/
def accessOK (m : Mem) (x : Nat) : Bool :=
  m.mapped x && decide (m.prot x = Prot.readWrite)

/-- Result of `mmap`: a base address, or the distinguished failure value
`MAP_FAILED`. -/
inductive MmapRet where
  | addr : Nat → MmapRet
  | mapFailed : MmapRet
  deriving DecidableEq, Repr

/-- POSIX `mmap(nullptr, len, prot, MAP_ANONYMOUS | MAP_PRIVATE, -1, 0)`:
the kernel chooses the placement, modelled by the oracle `choice`.  A `none`
choice, a null / misaligned base, a zero length, or a base whose range is
already occupied models the kernel declining the request (`MAP_FAILED`).
On success the whole range becomes mapped, zero-filled, with protection
`pr`, and the chosen base is returned. -/
def mmapAnon (m : Mem) (choice : Option Nat) (pageSize len : Nat) (pr : Prot) :
    Mem × MmapRet :=
  match choice with
  | none => (m, .mapFailed)
  | some base =>
    if base % pageSize = 0 ∧ base ≠ 0 ∧ 0 < len ∧ rangeUnmapped m base len = true then
      ({ mapped := fun x => if inRange base len x then true else m.mapped x,
         prot   := fun x => if inRange base len x then pr else m.prot x,
         val    := fun x => if inRange base len x then 0 else m.val x },
       .addr base)
    else (m, .mapFailed)

/-- POSIX `mmap(ptr, len, pr, MAP_FIXED | MAP_ANONYMOUS | MAP_PRIVATE, ..)`:
maps fresh anonymous zero-filled pages exactly at `ptr`, replacing any
existing mapping there.  Fails (`MAP_FAILED`, state unchanged) when `ptr`
is not page-aligned or `len` is zero; on success returns `ptr`. -/
def mmapFixedAnon (m : Mem) (pageSize ptr len : Nat) (pr : Prot) :
    Mem × MmapRet :=
  if ptr % pageSize = 0 ∧ 0 < len then
    ({ mapped := fun x => if inRange ptr len x then true else m.mapped x,
       prot   := fun x => if inRange ptr len x then pr else m.prot x,
       val    := fun x => if inRange ptr len x then 0 else m.val x },
     .addr ptr)
  else (m, .mapFailed)

/-- POSIX `mprotect(ptr, len, pr)`: changes the protection of `[ptr, ptr+len)`
to `pr`.  Fails with `-1` (state unchanged) when `ptr` is misaligned or some
byte of the range is unmapped (`ENOMEM`); returns `0` on success.  Mapping
and contents are never affected. -/
def mprotect (m : Mem) (pageSize ptr len : Nat) (pr : Prot) : Mem × Int :=
  if ptr % pageSize = 0 ∧ rangeMapped m ptr len = true then
    ({ m with prot := fun x => if inRange ptr len x then pr else m.prot x }, 0)
  else (m, -1)

/-- POSIX `munmap(ptr, len)`: removes the mapping of `[ptr, ptr+len)`.
Fails with `-1` (state unchanged) when `ptr` is misaligned; returns `0`
on success. -/
def munmap (m : Mem) (pageSize ptr len : Nat) : Mem × Int :=
  if ptr % pageSize = 0 then
    ({ m with mapped := fun x => if inRange ptr len x then false else m.mapped x }, 0)
  else (m, -1)

/-- The fields of `GuardedPageAllocator::state_` (struct `AllocatorState`)
this translation unit reads: the reserved region's base address
(`pages_base_addr`, 0 = null, set after a successful reservation), the
system page size, and the pool's page count. -/
structure AllocatorState where
  pages_base_addr : Nat
  page_size : Nat
  total_pages : Nat
  deriving DecidableEq, Repr

/-- Modelled from the spec: `RegionSize()` is declared in
`guarded_page_allocator.h`, which is not part of the fragment.  The spec
sizes the reservation as "`slot_count` guarded pages (logically
`slot_count * 3` pages including guard padding)". -/
def RegionSize (s : AllocatorState) : Nat := 3 * s.total_pages * s.page_size

/-- A `GuardedPageAllocator` as this translation unit sees it: its `state_`
plus the ambient virtual-memory state its syscalls act on. -/
structure GPA where
  state_ : AllocatorState
  mem : Mem

/-- Outcome of a member function that may trip a fatal `CHECK`/`PCHECK`:
either it returns (with the updated allocator) or the process dies. -/
inductive Outcome where
  | ok : GPA → Outcome
  | fatal : Outcome

/-- `true` iff the call died on a fatal check. -/
def Outcome.isFatal : Outcome → Bool
  | .ok _ => false
  | .fatal => true

/-- The memory state after the call, with `d` standing in for the (never
observed) post-abort state. -/
def Outcome.memD : Outcome → Mem → Mem
  | .ok g, _ => g.mem
  | .fatal, d => d

namespace GuardedPageAllocator

/-- `GuardedPageAllocator::MapRegion`:
`return mmap(nullptr, RegionSize(), PROT_NONE, MAP_ANONYMOUS | MAP_PRIVATE, -1, 0);`
— the raw result (base or `MAP_FAILED`) goes back to the caller; there is
no check here. -/
def MapRegion (g : GPA) (choice : Option Nat) : Mem × MmapRet :=
  mmapAnon g.mem choice g.state_.page_size (RegionSize g.state_) Prot.noAccess

/-- `GuardedPageAllocator::UnmapRegion`:
`CHECK(state_.pages_base_addr);` then
`munmap(pages_base_addr, RegionSize())` with the error code only
`DCHECK`ed (a no-op outside debug builds) and discarded. -/
def UnmapRegion (g : GPA) : Outcome :=
  if g.state_.pages_base_addr = 0 then .fatal
  else
    let r := munmap g.mem g.state_.page_size g.state_.pages_base_addr
      (RegionSize g.state_)
    .ok { g with mem := r.1 }

/-- `GuardedPageAllocator::MarkPageReadWrite`:
`int err = mprotect(ptr, state_.page_size, PROT_READ | PROT_WRITE);`
`PCHECK(err == 0)` — fatal if the syscall failed, plain return otherwise. -/
def MarkPageReadWrite (g : GPA) (ptr : Nat) : Outcome :=
  let r := mprotect g.mem g.state_.page_size ptr g.state_.page_size Prot.readWrite
  if r.2 = 0 then .ok { g with mem := r.1 } else .fatal

/-- `GuardedPageAllocator::MarkPageInaccessible`:
`mmap(ptr, state_.page_size, PROT_NONE, MAP_FIXED | MAP_ANONYMOUS | MAP_PRIVATE, 0, 0)`
— a fresh `PROT_NONE` page is mapped over the address (releasing it to the
system, rather than `mprotect`ing it); `PCHECK(err == ptr)` — fatal if the
result is not `ptr`, plain return otherwise. -/
def MarkPageInaccessible (g : GPA) (ptr : Nat) : Outcome :=
  let r := mmapFixedAnon g.mem g.state_.page_size ptr g.state_.page_size Prot.noAccess
  if r.2 = .addr ptr then .ok { g with mem := r.1 } else .fatal

end GuardedPageAllocator

/-- Run `f` after `o`, when `o` returned at all; a fatal check is final. -/
def Outcome.bind (o : Outcome) (f : GPA → Outcome) : Outcome :=
  match o with
  | .ok g => f g
  | .fatal => .fatal

theorem inRange_iff {a len x : Nat} : inRange a len x = true ↔ a ≤ x ∧ x < a + len := by
  simp [inRange]

theorem rangeAll_imp {a len : Nat} {f : Nat → Bool} (h : rangeAll a len f = true)
    {x : Nat} (hx : inRange a len x = true) : f x = true := by
  rw [inRange_iff] at hx
  unfold rangeAll at h
  rw [List.all_eq_true] at h
  have hfx := h (x - a) (by rw [List.mem_range]; omega)
  have hxa : a + (x - a) = x := by omega
  rwa [hxa] at hfx

theorem rangeAll_of_forall {a len : Nat} {f : Nat → Bool}
    (h : ∀ x, inRange a len x = true → f x = true) : rangeAll a len f = true := by
  unfold rangeAll
  rw [List.all_eq_true]
  intro i hi
  rw [List.mem_range] at hi
  exact h (a + i) (inRange_iff.mpr ⟨by omega, by omega⟩)

/-- All-unmapped memory. -/
def memEmpty : Mem :=
  { mapped := fun _ => false, prot := fun _ => Prot.noAccess, val := fun _ => 0 }

/-- Fully mapped read-write memory. -/
def memAllRW : Mem :=
  { mapped := fun _ => true, prot := fun _ => Prot.readWrite, val := fun _ => 0 }

/-- A small allocator over empty memory: page size 4, one slot, region
reserved at base 4. -/
def gEmpty : GPA :=
  { state_ := { pages_base_addr := 4, page_size := 4, total_pages := 1 },
    mem := memEmpty }

/-- The same allocator over fully mapped read-write memory. -/
def gAllRW : GPA :=
  { state_ := { pages_base_addr := 4, page_size := 4, total_pages := 1 },
    mem := memAllRW }

/-- Like `gAllRW` but every byte holds the value 7. -/
def gVals7 : GPA :=
  { state_ := { pages_base_addr := 4, page_size := 4, total_pages := 1 },
    mem := { mapped := fun _ => true, prot := fun _ => Prot.readWrite,
             val := fun _ => 7 } }

/-- Like `gAllRW` but with a null region base address (no reservation). -/
def gZero : GPA :=
  { state_ := { pages_base_addr := 0, page_size := 4, total_pages := 1 },
    mem := memAllRW }

/-- C1: for every page-aligned address `p`, if `MarkPageInaccessible p`
returns (does not die on its `PCHECK`), the whole page `[p, p + page_size)`
is mapped with no-access protection — regardless of its prior protection
state — so an access anywhere in the page faults. -/
theorem markPageInaccessible_page_inaccessible
    (g : GPA) (p x : Nat)
    (_halign : p % g.state_.page_size = 0)
    (hret : (GuardedPageAllocator.MarkPageInaccessible g p).isFatal = false)
    (hx : inRange p g.state_.page_size x = true) :
    ((GuardedPageAllocator.MarkPageInaccessible g p).memD g.mem).mapped x = true ∧
    ((GuardedPageAllocator.MarkPageInaccessible g p).memD g.mem).prot x = Prot.noAccess ∧
    accessOK ((GuardedPageAllocator.MarkPageInaccessible g p).memD g.mem) x = false := by
  unfold GuardedPageAllocator.MarkPageInaccessible mmapFixedAnon at *
  by_cases hc : p % g.state_.page_size = 0 ∧ 0 < g.state_.page_size
  · rw [if_pos hc] at *
    simp only [reduceIte, Outcome.memD, accessOK, hx]
    simp
  · rw [if_neg hc] at hret
    simp [Outcome.isFatal] at hret

/-- C1 witness: marking page `[4, 8)` of the empty-memory allocator
inaccessible returns, and address 5 then has no-access protection. -/
theorem markPageInaccessible_page_inaccessible_witness :
    ((GuardedPageAllocator.MarkPageInaccessible gEmpty 4).memD gEmpty.mem).prot 5 =
      Prot.noAccess ∧
    accessOK ((GuardedPageAllocator.MarkPageInaccessible gEmpty 4).memD gEmpty.mem) 5 =
      false :=
  (markPageInaccessible_page_inaccessible gEmpty 4 5 (by decide) (by decide)
    (by decide)).2

/-- C2: every successful `MapRegion` call maps the entire `RegionSize()`-byte
range with `PROT_NONE`: each address of `[base, base + RegionSize())` is
mapped, has no-access protection, and is neither readable nor writable. -/
theorem mapRegion_initially_inaccessible
    (g : GPA) (choice : Option Nat) (base x : Nat)
    (hret : (GuardedPageAllocator.MapRegion g choice).2 = MmapRet.addr base)
    (hx : inRange base (RegionSize g.state_) x = true) :
    (GuardedPageAllocator.MapRegion g choice).1.mapped x = true ∧
    (GuardedPageAllocator.MapRegion g choice).1.prot x = Prot.noAccess ∧
    accessOK (GuardedPageAllocator.MapRegion g choice).1 x = false := by
  unfold GuardedPageAllocator.MapRegion mmapAnon at *
  rcases choice with _ | b
  · simp at hret
  · dsimp only at hret ⊢
    by_cases hc : b % g.state_.page_size = 0 ∧ b ≠ 0 ∧ 0 < RegionSize g.state_ ∧
        rangeUnmapped g.mem b (RegionSize g.state_) = true
    · rw [if_pos hc] at *
      simp only [MmapRet.addr.injEq] at hret
      subst hret
      simp only [accessOK, hx]
      simp
    · rw [if_neg hc] at hret
      simp at hret

/-- C2 witness: with the kernel placing the 12-byte region at base 4 over
empty memory, address 6 is mapped but not accessible. -/
theorem mapRegion_initially_inaccessible_witness :
    (GuardedPageAllocator.MapRegion gEmpty (some 4)).1.mapped 6 = true ∧
    (GuardedPageAllocator.MapRegion gEmpty (some 4)).1.prot 6 = Prot.noAccess ∧
    accessOK (GuardedPageAllocator.MapRegion gEmpty (some 4)).1 6 = false :=
  mapRegion_initially_inaccessible gEmpty (some 4) 4 6 (by decide) (by decide)

/-- C3: if `MarkPageReadWrite p` returns, every address of
`[p, p + page_size)` is readable and writable, and the protection of every
address outside that single page — along with all mapping and contents —
is exactly as before: one page of size `page_size` changed. -/
theorem markPageReadWrite_exactly_one_page
    (g : GPA) (p x y : Nat)
    (hret : (GuardedPageAllocator.MarkPageReadWrite g p).isFatal = false)
    (hx : inRange p g.state_.page_size x = true)
    (hy : inRange p g.state_.page_size y = false) :
    accessOK ((GuardedPageAllocator.MarkPageReadWrite g p).memD g.mem) x = true ∧
    ((GuardedPageAllocator.MarkPageReadWrite g p).memD g.mem).prot y = g.mem.prot y ∧
    ((GuardedPageAllocator.MarkPageReadWrite g p).memD g.mem).mapped y = g.mem.mapped y ∧
    ((GuardedPageAllocator.MarkPageReadWrite g p).memD g.mem).val y = g.mem.val y := by
  unfold GuardedPageAllocator.MarkPageReadWrite mprotect at *
  by_cases hc : p % g.state_.page_size = 0 ∧
      rangeMapped g.mem p g.state_.page_size = true
  · rw [if_pos hc] at *
    have hmx : g.mem.mapped x = true := rangeAll_imp hc.2 hx
    simp only [reduceIte, Outcome.memD, accessOK, hx, hy]
    simp [hmx]
  · rw [if_neg hc] at hret
    simp [Outcome.isFatal] at hret

/-- C3 witness: making page `[4, 8)` read-write over fully mapped memory
returns; address 5 is accessible and address 9 keeps its prior protection,
mapping and contents. -/
theorem markPageReadWrite_exactly_one_page_witness :
    accessOK ((GuardedPageAllocator.MarkPageReadWrite gAllRW 4).memD gAllRW.mem) 5 =
      true ∧
    ((GuardedPageAllocator.MarkPageReadWrite gAllRW 4).memD gAllRW.mem).prot 9 =
      gAllRW.mem.prot 9 :=
  have h := markPageReadWrite_exactly_one_page gAllRW 4 5 9 (by decide) (by decide)
    (by decide)
  ⟨h.1, h.2.1⟩

theorem rangeAll_mono {a len : Nat} {f g : Nat → Bool}
    (hfg : ∀ x, f x = true → g x = true) (h : rangeAll a len f = true) :
    rangeAll a len g = true := by
  unfold rangeAll at *
  rw [List.all_eq_true] at *
  intro i hi
  exact hfg _ (h i hi)

/-- C4 counterexample: over empty memory the OS operations fail, and
neither `MarkPageReadWrite` nor `MarkPageInaccessible` reports this as a
returned result — both die on their `PCHECK` instead of returning. -/
theorem markPage_failure_not_returned_cex :
    (mprotect gEmpty.mem gEmpty.state_.page_size 4 gEmpty.state_.page_size
      Prot.readWrite).2 ≠ 0 ∧
    (GuardedPageAllocator.MarkPageReadWrite gEmpty 4).isFatal = true ∧
    (mmapFixedAnon gEmpty.mem gEmpty.state_.page_size 3 gEmpty.state_.page_size
      Prot.noAccess).2 ≠ MmapRet.addr 3 ∧
    (GuardedPageAllocator.MarkPageInaccessible gEmpty 3).isFatal = true := by
  refine ⟨by decide, by decide, by decide, by decide⟩

/-- C4 (amended): a failure of the underlying OS operation is **not**
returned to the caller as a result value — both page-protection primitives
return `void` and terminate the process through `PCHECK` whenever the OS
operation fails. -/
theorem markPage_failure_is_fatal (g : GPA) (p : Nat) :
    ((mprotect g.mem g.state_.page_size p g.state_.page_size
        Prot.readWrite).2 ≠ 0 →
      GuardedPageAllocator.MarkPageReadWrite g p = Outcome.fatal) ∧
    ((mmapFixedAnon g.mem g.state_.page_size p g.state_.page_size
        Prot.noAccess).2 ≠ MmapRet.addr p →
      GuardedPageAllocator.MarkPageInaccessible g p = Outcome.fatal) := by
  constructor
  · intro herr
    unfold GuardedPageAllocator.MarkPageReadWrite
    rw [if_neg herr]
  · intro herr
    unfold GuardedPageAllocator.MarkPageInaccessible
    rw [if_neg herr]

/-- C4 (amended) witness: on the empty-memory allocator the `mprotect`
failure makes `MarkPageReadWrite` fatal. -/
theorem markPage_failure_is_fatal_witness :
    GuardedPageAllocator.MarkPageReadWrite gEmpty 4 = Outcome.fatal :=
  (markPage_failure_is_fatal gEmpty 4).1 (by decide)

/-- C5: page-protection toggling is framed to the targeted page — for any
address `y` outside `[p, p + page_size)`, both `MarkPageReadWrite p` and
`MarkPageInaccessible p` leave `y`'s mapping, protection and contents
exactly as they were; in particular the flanking guard pages stay
inaccessible when a slot's page is toggled. -/
theorem markPage_frame
    (g : GPA) (p y : Nat)
    (hy : inRange p g.state_.page_size y = false) :
    (((GuardedPageAllocator.MarkPageReadWrite g p).memD g.mem).mapped y =
        g.mem.mapped y ∧
     ((GuardedPageAllocator.MarkPageReadWrite g p).memD g.mem).prot y =
        g.mem.prot y ∧
     ((GuardedPageAllocator.MarkPageReadWrite g p).memD g.mem).val y =
        g.mem.val y) ∧
    (((GuardedPageAllocator.MarkPageInaccessible g p).memD g.mem).mapped y =
        g.mem.mapped y ∧
     ((GuardedPageAllocator.MarkPageInaccessible g p).memD g.mem).prot y =
        g.mem.prot y ∧
     ((GuardedPageAllocator.MarkPageInaccessible g p).memD g.mem).val y =
        g.mem.val y) := by
  constructor
  · unfold GuardedPageAllocator.MarkPageReadWrite mprotect
    by_cases hc : p % g.state_.page_size = 0 ∧
        rangeMapped g.mem p g.state_.page_size = true
    · rw [if_pos hc]
      simp only [reduceIte, Outcome.memD, hy]
      simp
    · rw [if_neg hc]
      simp [Outcome.memD]
  · unfold GuardedPageAllocator.MarkPageInaccessible mmapFixedAnon
    by_cases hc : p % g.state_.page_size = 0 ∧ 0 < g.state_.page_size
    · rw [if_pos hc]
      simp only [reduceIte, Outcome.memD, hy]
      simp
    · rw [if_neg hc]
      simp [Outcome.memD]

/-- C5 witness: toggling page `[4, 8)` leaves address 9 untouched under
both operations. -/
theorem markPage_frame_witness :
    ((GuardedPageAllocator.MarkPageReadWrite gAllRW 4).memD gAllRW.mem).prot 9 =
      gAllRW.mem.prot 9 ∧
    ((GuardedPageAllocator.MarkPageInaccessible gAllRW 4).memD gAllRW.mem).prot 9 =
      gAllRW.mem.prot 9 :=
  have h := markPage_frame gAllRW 4 9 (by decide)
  ⟨h.1.2.1, h.2.2.1⟩

theorem Mem.ext' {m1 m2 : Mem}
    (h1 : ∀ x, m1.mapped x = m2.mapped x) (h2 : ∀ x, m1.prot x = m2.prot x)
    (h3 : ∀ x, m1.val x = m2.val x) : m1 = m2 := by
  cases m1
  cases m2
  simp only [Mem.mk.injEq]
  exact ⟨funext h1, funext h2, funext h3⟩

theorem markPageReadWrite_eq (g : GPA) (p : Nat) :
    GuardedPageAllocator.MarkPageReadWrite g p =
      if p % g.state_.page_size = 0 ∧ rangeMapped g.mem p g.state_.page_size = true
      then Outcome.ok { g with mem := { g.mem with prot := (fun x =>
            if inRange p g.state_.page_size x then Prot.readWrite
            else g.mem.prot x) } }
      else Outcome.fatal := by
  unfold GuardedPageAllocator.MarkPageReadWrite mprotect
  by_cases hc : p % g.state_.page_size = 0 ∧
      rangeMapped g.mem p g.state_.page_size = true
  · simp only [if_pos hc]
    simp
  · simp only [if_neg hc]
    simp

theorem markPageInaccessible_eq (g : GPA) (p : Nat) :
    GuardedPageAllocator.MarkPageInaccessible g p =
      if p % g.state_.page_size = 0 ∧ 0 < g.state_.page_size
      then Outcome.ok { g with mem :=
        { mapped := fun x =>
            if inRange p g.state_.page_size x then true else g.mem.mapped x,
          prot := fun x =>
            if inRange p g.state_.page_size x then Prot.noAccess else g.mem.prot x,
          val := fun x =>
            if inRange p g.state_.page_size x then 0 else g.mem.val x } }
      else Outcome.fatal := by
  unfold GuardedPageAllocator.MarkPageInaccessible mmapFixedAnon
  by_cases hc : p % g.state_.page_size = 0 ∧ 0 < g.state_.page_size
  · simp only [if_pos hc]
    simp
  · simp only [if_neg hc]
    simp

/-- C6: the page-protection operations are idempotent-safe — applying
either operation twice in a row equals applying it once, and calling an
operation on a page already in its target state returns (no fatal check)
and leaves the page in that very state. -/
theorem markPage_idempotent (g : GPA) (p : Nat) :
    ((GuardedPageAllocator.MarkPageReadWrite g p).bind
        (fun h => GuardedPageAllocator.MarkPageReadWrite h p) =
      GuardedPageAllocator.MarkPageReadWrite g p) ∧
    ((GuardedPageAllocator.MarkPageInaccessible g p).bind
        (fun h => GuardedPageAllocator.MarkPageInaccessible h p) =
      GuardedPageAllocator.MarkPageInaccessible g p) ∧
    (p % g.state_.page_size = 0 →
      rangeAll p g.state_.page_size (accessOK g.mem) = true →
      (GuardedPageAllocator.MarkPageReadWrite g p).isFatal = false ∧
      ∀ x, ((GuardedPageAllocator.MarkPageReadWrite g p).memD g.mem).prot x =
        g.mem.prot x) ∧
    (p % g.state_.page_size = 0 → 0 < g.state_.page_size →
      rangeAll p g.state_.page_size
        (fun x => g.mem.mapped x && decide (g.mem.prot x = Prot.noAccess) &&
          decide (g.mem.val x = 0)) = true →
      (GuardedPageAllocator.MarkPageInaccessible g p).isFatal = false ∧
      ∀ x,
        ((GuardedPageAllocator.MarkPageInaccessible g p).memD g.mem).mapped x =
          g.mem.mapped x ∧
        ((GuardedPageAllocator.MarkPageInaccessible g p).memD g.mem).prot x =
          g.mem.prot x ∧
        ((GuardedPageAllocator.MarkPageInaccessible g p).memD g.mem).val x =
          g.mem.val x) := by
  refine ⟨?_, ?_, ?_, ?_⟩
  · by_cases hc : p % g.state_.page_size = 0 ∧
        rangeMapped g.mem p g.state_.page_size = true
    · rw [markPageReadWrite_eq g p, if_pos hc]
      dsimp only [Outcome.bind]
      rw [markPageReadWrite_eq]
      unfold rangeMapped at hc ⊢
      dsimp only
      rw [if_pos hc]
      congr 2
      refine Mem.ext' (fun x => rfl) (fun x => ?_) (fun x => rfl)
      dsimp only
      by_cases hx : inRange p g.state_.page_size x = true
      · simp [hx]
      · simp [hx]
    · rw [markPageReadWrite_eq g p, if_neg hc]
      rfl
  · by_cases hc : p % g.state_.page_size = 0 ∧ 0 < g.state_.page_size
    · rw [markPageInaccessible_eq g p, if_pos hc]
      dsimp only [Outcome.bind]
      rw [markPageInaccessible_eq]
      dsimp only
      rw [if_pos hc]
      congr 2
      refine Mem.ext' (fun x => ?_) (fun x => ?_) (fun x => ?_) <;> dsimp only <;>
        by_cases hx : inRange p g.state_.page_size x = true <;> simp [hx]
    · rw [markPageInaccessible_eq g p, if_neg hc]
      rfl
  · intro halign hacc
    have hmapped : rangeMapped g.mem p g.state_.page_size = true := by
      unfold rangeMapped
      refine rangeAll_mono (fun x hx => ?_) hacc
      unfold accessOK at hx
      rw [Bool.and_eq_true] at hx
      exact hx.1
    rw [markPageReadWrite_eq g p, if_pos ⟨halign, hmapped⟩]
    refine ⟨rfl, fun x => ?_⟩
    dsimp only [Outcome.memD]
    by_cases hx : inRange p g.state_.page_size x = true
    · have hax := rangeAll_imp hacc hx
      unfold accessOK at hax
      rw [Bool.and_eq_true] at hax
      have hrw : g.mem.prot x = Prot.readWrite := of_decide_eq_true hax.2
      simp [hx, hrw]
    · simp [hx]
  · intro halign hps htgt
    rw [markPageInaccessible_eq g p, if_pos ⟨halign, hps⟩]
    refine ⟨rfl, fun x => ?_⟩
    dsimp only [Outcome.memD]
    by_cases hx : inRange p g.state_.page_size x = true
    · have h3 := rangeAll_imp htgt hx
      rw [Bool.and_eq_true, Bool.and_eq_true] at h3
      obtain ⟨⟨hm, hpr⟩, hv⟩ := h3
      refine ⟨?_, ?_, ?_⟩ <;> simp [hx, hm, of_decide_eq_true hpr, of_decide_eq_true hv]
    · simp [hx]

/-- C6 witness: on a fully mapped read-write memory, re-marking page
`[4, 8)` read-write returns and leaves every protection as it was. -/
theorem markPage_idempotent_witness :
    (GuardedPageAllocator.MarkPageReadWrite gAllRW 4).isFatal = false ∧
    ∀ x, ((GuardedPageAllocator.MarkPageReadWrite gAllRW 4).memD gAllRW.mem).prot x =
      gAllRW.mem.prot x :=
  (markPage_idempotent gAllRW 4).2.2.1 (by decide) (by decide)

/-- C7: region reservation cannot kill the process — `MapRegion` always
returns to its caller, either the distinguished `MAP_FAILED` value with
the memory state untouched (so initialization can disable the feature and
carry on), or a base address whose whole `RegionSize()` range got mapped. -/
theorem mapRegion_recoverable (g : GPA) (choice : Option Nat) :
    ((GuardedPageAllocator.MapRegion g choice).2 = MmapRet.mapFailed →
      (GuardedPageAllocator.MapRegion g choice).1 = g.mem) ∧
    (∀ b, (GuardedPageAllocator.MapRegion g choice).2 = MmapRet.addr b →
      b ≠ 0 ∧
      rangeMapped (GuardedPageAllocator.MapRegion g choice).1 b
        (RegionSize g.state_) = true) := by
  unfold GuardedPageAllocator.MapRegion mmapAnon
  rcases choice with _ | c
  · dsimp only
    exact ⟨fun _ => rfl, fun b hb => by simp at hb⟩
  · dsimp only
    by_cases hc : c % g.state_.page_size = 0 ∧ c ≠ 0 ∧ 0 < RegionSize g.state_ ∧
        rangeUnmapped g.mem c (RegionSize g.state_) = true
    · rw [if_pos hc]
      refine ⟨fun hfail => by simp at hfail, fun b hb => ?_⟩
      dsimp only at hb
      injection hb with hb
      subst hb
      refine ⟨hc.2.1, ?_⟩
      unfold rangeMapped
      refine rangeAll_of_forall (fun y hy => ?_)
      dsimp only
      simp [hy]
    · rw [if_neg hc]
      exact ⟨fun _ => rfl, fun b hb => by simp at hb⟩

/-- C7 witness: over empty memory with the kernel offering base 4, the
region's 12 bytes get mapped and the returned base is usable. -/
theorem mapRegion_recoverable_witness :
    (4 : Nat) ≠ 0 ∧
    rangeMapped (GuardedPageAllocator.MapRegion gEmpty (some 4)).1 4
      (RegionSize gEmpty.state_) = true :=
  (mapRegion_recoverable gEmpty (some 4)).2 4 (by decide)

theorem wipe_then_expose_eq (g : GPA) (p : Nat)
    (halign : p % g.state_.page_size = 0) (hps : 0 < g.state_.page_size) :
    (GuardedPageAllocator.MarkPageInaccessible g p).bind
      (fun h => GuardedPageAllocator.MarkPageReadWrite h p) =
    Outcome.ok { g with mem :=
      { mapped := (fun x =>
          if inRange p g.state_.page_size x then true else g.mem.mapped x),
        prot := (fun x =>
          if inRange p g.state_.page_size x then Prot.readWrite
          else g.mem.prot x),
        val := (fun x =>
          if inRange p g.state_.page_size x then 0 else g.mem.val x) } } := by
  rw [markPageInaccessible_eq g p, if_pos ⟨halign, hps⟩]
  dsimp only [Outcome.bind]
  rw [markPageReadWrite_eq]
  unfold rangeMapped
  dsimp only
  have hm : rangeAll p g.state_.page_size
      (fun x => if inRange p g.state_.page_size x = true then true
        else g.mem.mapped x) = true :=
    rangeAll_of_forall (fun y hy => by simp [hy])
  rw [if_pos ⟨halign, hm⟩]
  congr 2
  refine Mem.ext' (fun x => rfl) (fun x => ?_) (fun x => rfl)
  dsimp only
  by_cases hx : inRange p g.state_.page_size x = true <;> simp [hx]

/-- C9: `MarkPageInaccessible` maps a fresh anonymous page over the slot,
discarding its contents — two runs from memories with arbitrary, different
page contents agree after a later `MarkPageReadWrite`: the page reads back
zero-filled either way, so data written before deallocation can never be
read out of a reused slot. -/
theorem markPageInaccessible_erases_contents
    (g1 g2 : GPA) (p x : Nat)
    (hs : g1.state_ = g2.state_)
    (halign : p % g1.state_.page_size = 0)
    (hps : 0 < g1.state_.page_size)
    (hx : inRange p g1.state_.page_size x = true) :
    ((GuardedPageAllocator.MarkPageInaccessible g1 p).bind
      (fun h => GuardedPageAllocator.MarkPageReadWrite h p)).isFatal = false ∧
    ((GuardedPageAllocator.MarkPageInaccessible g2 p).bind
      (fun h => GuardedPageAllocator.MarkPageReadWrite h p)).isFatal = false ∧
    (((GuardedPageAllocator.MarkPageInaccessible g1 p).bind
      (fun h => GuardedPageAllocator.MarkPageReadWrite h p)).memD g1.mem).val x
      = 0 ∧
    (((GuardedPageAllocator.MarkPageInaccessible g2 p).bind
      (fun h => GuardedPageAllocator.MarkPageReadWrite h p)).memD g2.mem).val x
      =
    (((GuardedPageAllocator.MarkPageInaccessible g1 p).bind
      (fun h => GuardedPageAllocator.MarkPageReadWrite h p)).memD g1.mem).val x
      ∧
    accessOK (((GuardedPageAllocator.MarkPageInaccessible g1 p).bind
      (fun h => GuardedPageAllocator.MarkPageReadWrite h p)).memD g1.mem) x
      = true := by
  have halign2 : p % g2.state_.page_size = 0 := by rw [← hs]; exact halign
  have hps2 : 0 < g2.state_.page_size := by rw [← hs]; exact hps
  have hx2 : inRange p g2.state_.page_size x = true := by rw [← hs]; exact hx
  rw [wipe_then_expose_eq g1 p halign hps, wipe_then_expose_eq g2 p halign2 hps2]
  dsimp only [Outcome.memD, Outcome.isFatal]
  refine ⟨rfl, rfl, ?_, ?_, ?_⟩ <;> simp [hx, hx2, accessOK]

/-- C9 witness: memories holding all-zero and all-7 page contents read
back identically (zero) after wipe-then-expose of page `[4, 8)`. -/
theorem markPageInaccessible_erases_contents_witness :
    (((GuardedPageAllocator.MarkPageInaccessible gAllRW 4).bind
      (fun h => GuardedPageAllocator.MarkPageReadWrite h 4)).memD gAllRW.mem).val 5
      = 0 :=
  (markPageInaccessible_erases_contents gAllRW gVals7 4 5 (by decide) (by decide)
    (by decide) (by decide)).2.2.1

/-- C10: `UnmapRegion` requires a prior successful reservation — it is
process-fatal (`CHECK`) when the stored base address is null, and with a
non-null (page-aligned) base it returns and unmaps exactly the
`RegionSize()` bytes starting at that base, touching nothing outside. -/
theorem unmapRegion_checked (g : GPA) :
    (g.state_.pages_base_addr = 0 →
      GuardedPageAllocator.UnmapRegion g = Outcome.fatal) ∧
    (g.state_.pages_base_addr ≠ 0 →
      g.state_.pages_base_addr % g.state_.page_size = 0 →
      (GuardedPageAllocator.UnmapRegion g).isFatal = false ∧
      (∀ x, inRange g.state_.pages_base_addr (RegionSize g.state_) x = true →
        ((GuardedPageAllocator.UnmapRegion g).memD g.mem).mapped x = false) ∧
      (∀ x, inRange g.state_.pages_base_addr (RegionSize g.state_) x = false →
        ((GuardedPageAllocator.UnmapRegion g).memD g.mem).mapped x =
          g.mem.mapped x ∧
        ((GuardedPageAllocator.UnmapRegion g).memD g.mem).prot x =
          g.mem.prot x ∧
        ((GuardedPageAllocator.UnmapRegion g).memD g.mem).val x =
          g.mem.val x)) := by
  unfold GuardedPageAllocator.UnmapRegion munmap
  constructor
  · intro h0
    rw [if_pos h0]
  · intro hnz halign
    rw [if_neg hnz, if_pos halign]
    dsimp only [Outcome.isFatal, Outcome.memD]
    refine ⟨rfl, fun x hx => by simp [hx], fun x hx => by simp [hx]⟩

/-- C10 witness: with a null base the call is fatal; with base 4 over fully
mapped memory, address 5 (inside the region) gets unmapped. -/
theorem unmapRegion_checked_witness :
    GuardedPageAllocator.UnmapRegion gZero = Outcome.fatal ∧
    ((GuardedPageAllocator.UnmapRegion gAllRW).memD gAllRW.mem).mapped 5 = false :=
  ⟨(unmapRegion_checked gZero).1 (by decide),
   ((unmapRegion_checked gAllRW).2 (by decide) (by decide)).2.1 5 (by decide)⟩

/-- Modelled from the spec: the allocator core and the Free-Slot Selector
(`guarded_page_allocator.h/.cc`) are not part of the fragment.  Per the
spec, the selector "maintains a collection of free slot indices" and the
pool tracks the outstanding allocations. -/
structure Pool where
  page_size : Nat
  free : List Nat
  allocated : List Nat

/-- Modelled from the spec: "A freshly initialized pool has `slot_count`
free slots" — all slot indices start in the free set, none allocated. -/
def Pool.fresh (pageSize slotCount : Nat) : Pool :=
  { page_size := pageSize, free := List.range slotCount, allocated := [] }

/-- Modelled from the spec: `Allocate(size, alignment)` "fails (returns
'no slot', not fatal) if `size` exceeds the page size or `alignment`
cannot be satisfied within a page"; otherwise `PickFree()` "returns `None`
if empty (pool exhausted); otherwise selects uniformly at random among
free indices" — the pseudo-random source is the `rand` argument — and the
chosen slot leaves the free set and becomes an outstanding allocation. -/
def Pool.Allocate (pl : Pool) (size align rand : Nat) : Option (Nat × Pool) :=
  if size > pl.page_size ∨ align > pl.page_size ∨ pl.free.length = 0 then none
  else
    let i := rand % pl.free.length
    let slot := pl.free.getD i 0
    some (slot,
      { pl with free := pl.free.eraseIdx i, allocated := slot :: pl.allocated })

theorem Pool.allocate_success (pl : Pool) (size align rand : Nat)
    (hs : size ≤ pl.page_size) (ha : align ≤ pl.page_size)
    (hf : pl.free.length ≠ 0) :
    ∃ s q, pl.Allocate size align rand = some (s, q) ∧
      q.free.length = pl.free.length - 1 ∧ q.page_size = pl.page_size := by
  unfold Pool.Allocate
  rw [if_neg (by push_neg; exact ⟨hs, ha, hf⟩)]
  refine ⟨_, _, rfl, ?_, rfl⟩
  dsimp only
  rw [List.length_eraseIdx]
  have hlt : rand % pl.free.length < pl.free.length := Nat.mod_lt _ (by omega)
  simp [hlt]

theorem Pool.allocate_exhausted (pl : Pool) (size align rand : Nat)
    (hf : pl.free.length = 0) : pl.Allocate size align rand = none := by
  unfold Pool.Allocate
  rw [if_pos (Or.inr (Or.inr hf))]

/-- C8: with page size 4096 and slot count 4, the first four `Allocate`
calls on a fresh pool succeed — whatever the pseudo-random slot picks —
and the fifth call, made while all four allocations are outstanding,
returns "no slot" (pool exhaustion). -/
theorem allocate_four_then_exhausted (r1 r2 r3 r4 r5 : Nat) :
    ∃ s1 q1 s2 q2 s3 q3 s4 q4,
      (Pool.fresh 4096 4).Allocate 8 1 r1 = some (s1, q1) ∧
      q1.Allocate 8 1 r2 = some (s2, q2) ∧
      q2.Allocate 8 1 r3 = some (s3, q3) ∧
      q3.Allocate 8 1 r4 = some (s4, q4) ∧
      q4.Allocate 8 1 r5 = none := by
  obtain ⟨s1, q1, h1, hl1, hp1⟩ :=
    Pool.allocate_success (Pool.fresh 4096 4) 8 1 r1 (by decide) (by decide)
      (by decide)
  have hl1' : q1.free.length = 3 := by rw [hl1]; decide
  obtain ⟨s2, q2, h2, hl2, hp2⟩ :=
    Pool.allocate_success q1 8 1 r2 (by rw [hp1]; decide) (by rw [hp1]; decide)
      (by omega)
  have hl2' : q2.free.length = 2 := by omega
  obtain ⟨s3, q3, h3, hl3, hp3⟩ :=
    Pool.allocate_success q2 8 1 r3 (by rw [hp2, hp1]; decide)
      (by rw [hp2, hp1]; decide) (by omega)
  have hl3' : q3.free.length = 1 := by omega
  obtain ⟨s4, q4, h4, hl4, hp4⟩ :=
    Pool.allocate_success q3 8 1 r4 (by rw [hp3, hp2, hp1]; decide)
      (by rw [hp3, hp2, hp1]; decide) (by omega)
  have hl4' : q4.free.length = 0 := by omega
  exact ⟨s1, q1, s2, q2, s3, q3, s4, q4, h1, h2, h3, h4,
    Pool.allocate_exhausted q4 8 1 r5 hl4'⟩

end GwpAsan
